import Mathlib

/-!
Verification of the fraud-alert recording pipeline of the
Issue-Team-Innowave fraud-detection system.

The development shallowly embeds the JavaScript sources:
  - `models/database.js` (schema and `dbHelpers`, here: `Db`,
    `createBlockchainRecord`, `getTransaction`),
  - `routes/blockchain.js` (`POST /api/blockchain/record` and
    `POST /api/blockchain/batch-record`, here: `blockchainRecordRoute`,
    `batchRecordRoute`),
  - `routes/transactions.js` (`runFraudDetection`),
  - `demo/demo_data.js` (`generateFraudAlerts`, `generateBlockchainRecords`,
    and the fraud rule used by `seedDatabase`).

The class `CardanoIntegration` (file `blockchain/cardano_integration.js`) is
not part of the sources; where a claim depends on it, the function
`createFraudAlertTransaction` and the codec `encodeMetadata` are modelled
from the specification and the repository README, and marked as such.
-/

/-- A JSON scalar value, used to model the JSON objects the system
serializes (`JSON.stringify`) into metadata and feature blobs. -/
inductive JsonVal where
  | str (s : String)
  | num (q : Rat)
  | nul
deriving Repr, DecidableEq

/-- A row of the `transactions` table (models/database.js), restricted to the
columns the recording pipeline reads.  `is_fraud` has schema default 0 and
`fraud_score` default 0, so both are total here. -/
structure Transaction where
  transaction_id : String
  user_id : String
  amount : Rat
  currency : String
  merchant_name : String
  merchant_category : String
  timestamp : String
  hour : Nat
  is_weekend : Nat
  is_holiday : Nat
  is_fraud : Bool
  fraud_score : Rat
deriving Repr, DecidableEq

/-- A stored row of the `blockchain_records` table.  The schema declares
`cardano_tx_hash TEXT UNIQUE NOT NULL` (hence `String`, not `Option String`),
`block_height INTEGER` (nullable) and
`confirmation_status TEXT DEFAULT 'pending'`. -/
structure BlockchainRow where
  id : Nat
  transaction_id : String
  cardano_tx_hash : String
  nft_id : Option String
  metadata : List (String × JsonVal)
  block_height : Option Nat
  confirmation_status : String
deriving Repr, DecidableEq

/-- The record object passed to `dbHelpers.createBlockchainRecord`
(as produced by `CardanoIntegration.createFraudAlertTransaction` or by
`generateBlockchainRecords`).  A JavaScript object may carry any of these
properties; `cardano_tx_hash` is an `Option` so that a missing/null hash can
be passed (the NOT NULL column constraint then rejects the insert).
`confirmation_status` and `created_at` are present on demo-generated objects
but are never read by the insert helper. -/
structure RecordData where
  transaction_id : String
  cardano_tx_hash : Option String
  nft_id : Option String
  metadata : List (String × JsonVal)
  block_height : Option Nat
  confirmation_status : String
  created_at : String
deriving Repr, DecidableEq

/-- SQLite errors the embedded operations can raise: violation of the
UNIQUE constraint or of the NOT NULL constraint on `cardano_tx_hash`. -/
inductive DbError where
  | uniqueConstraint
  | notNullConstraint
deriving Repr, DecidableEq

/-- The database state: the `transactions` and `blockchain_records` tables
and the AUTOINCREMENT counter for `blockchain_records.id`. -/
structure Db where
  transactions : List Transaction
  blockchain_records : List BlockchainRow
  nextId : Nat
deriving Repr, DecidableEq

/-- The empty database produced by `initializeDatabase`. -/
def emptyDb : Db := { transactions := [], blockchain_records := [], nextId := 1 }

/-- Models `dbHelpers.getTransaction`: `SELECT * FROM transactions WHERE
transaction_id = ?`. -/
def getTransaction (db : Db) (txid : String) : Option Transaction :=
  db.transactions.find? (fun t => t.transaction_id == txid)

/-- The row stored by `dbHelpers.createBlockchainRecord`: the helper
destructures only `transaction_id`, `cardano_tx_hash`, `nft_id`, `metadata`,
`block_height` from its argument and inserts those five columns, so
`confirmation_status` takes the schema default value "pending" and any
status carried by the argument is ignored. -/
def insertedRow (db : Db) (r : RecordData) (h : String) : BlockchainRow :=
  { id := db.nextId
    transaction_id := r.transaction_id
    cardano_tx_hash := h
    nft_id := r.nft_id
    metadata := r.metadata
    block_height := r.block_height
    confirmation_status := "pending" }

/-- Models the INSERT of `dbHelpers.createBlockchainRecord` against the
declared column constraints: a null hash violates NOT NULL and a hash equal
to a stored one violates UNIQUE; otherwise the row of `insertedRow` is
appended and the new rowid returned. -/
def createBlockchainRecord (db : Db) (r : RecordData) :
    Except DbError (Db × Nat) :=
  match r.cardano_tx_hash with
  | none => .error .notNullConstraint
  | some h =>
    if db.blockchain_records.any (fun row => row.cardano_tx_hash == h) then
      .error .uniqueConstraint
    else
      .ok ({ db with
              blockchain_records := db.blockchain_records ++ [insertedRow db r h]
              nextId := db.nextId + 1 },
            db.nextId)

/-- The list of stored ledger transaction hashes. -/
def hashes (db : Db) : List String :=
  db.blockchain_records.map (fun row => row.cardano_tx_hash)

/-- The stored blockchain records referencing a given transaction id. -/
def recordsFor (db : Db) (txid : String) : List BlockchainRow :=
  db.blockchain_records.filter (fun row => row.transaction_id == txid)

/-- Applies a sequence of `createBlockchainRecord` inserts, dropping the
rejected ones (the pattern of `seedDatabase`, which catches and ignores
UNIQUE-constraint errors). -/
def applyInserts (db : Db) (rs : List RecordData) : Db :=
  rs.foldl
    (fun d r =>
      match createBlockchainRecord d r with
      | .ok (d2, _) => d2
      | .error _ => d)
    db

/-- The fraud-prediction object the routes build and pass to the ledger
integration (`{ is_fraud, fraud_score, confidence }`). -/
structure FraudPrediction where
  is_fraud : Bool
  fraud_score : Rat
  confidence : Rat
deriving Repr, DecidableEq

/-- Errors of the ledger integration, per the specification's taxonomy. -/
inductive LedgerError where
  | NotEligible
  | LedgerUnavailable
  | LedgerRejected
  | InsufficientFunds
  | WalletError
deriving Repr, DecidableEq

/-- The outcome of one attempted submission to the external ledger network:
a fresh transaction hash on success, or a transient/terminal failure.  The
network is external, so the outcome is an input to the embedded operations. -/
inductive SubmitOutcome where
  | ok (hash : String)
  | unavailable
  | rejected
deriving Repr, DecidableEq

/-- Modelled from the spec: the metadata encoder of the missing
`blockchain/cardano_integration.js`, following the codec contract and the
README "Metadata Structure" example (transaction identifier, amount,
currency, normalized flag from the fraud verdict, fraud score, confidence,
timestamp, merchant name and category, user id, model identifier, schema
version, alert-type tag). -/
def encodeMetadata (t : Transaction) (p : FraudPrediction) :
    List (String × JsonVal) :=
  [("transactionID", .str t.transaction_id),
   ("amount", .num t.amount),
   ("currency", .str t.currency),
   ("flag", .str (if p.is_fraud then "Suspicious" else "Legitimate")),
   ("fraudScore", .num p.fraud_score),
   ("confidence", .num p.confidence),
   ("timestamp", .str t.timestamp),
   ("merchantName", .str t.merchant_name),
   ("merchantCategory", .str t.merchant_category),
   ("userId", .str t.user_id),
   ("mlModel", .str "XGBoost + KMeans"),
   ("version", .str "1.0.0"),
   ("alertType", .str "FRAUD_ALERT")]

/-- Modelled from the spec: `CardanoIntegration.createFraudAlertTransaction`
of the missing `blockchain/cardano_integration.js`.  Per the Alert Recorder
contract it checks eligibility (`fraud_prediction.is_fraud == true`), encodes
metadata, submits, and on success returns a record object with the returned
hash, no block height and pending status; submission failures are thrown.
The class holds only network/wallet configuration (see its construction in
the routes), so it performs no database access. -/
def createFraudAlertTransaction (t : Transaction) (p : FraudPrediction)
    (submit : SubmitOutcome) : Except LedgerError RecordData :=
  if p.is_fraud = false then
    .error .NotEligible
  else
    match submit with
    | .ok h =>
      .ok { transaction_id := t.transaction_id
            cardano_tx_hash := some h
            nft_id := none
            metadata := encodeMetadata t p
            block_height := none
            confirmation_status := "pending"
            created_at := t.timestamp }
    | .unavailable => .error .LedgerUnavailable
    | .rejected => .error .LedgerRejected

/-- Error responses of `POST /api/blockchain/record` (routes/blockchain.js):
400 on a missing field, 404 when the transaction is unknown, and the
catch-all 500 wrapping any error thrown during ledger recording or the
database insert. -/
inductive RouteError where
  | missingField
  | txNotFound
  | internal (e : LedgerError)
  | internalDb (e : DbError)
deriving Repr, DecidableEq

/-- The 201 response body of `POST /api/blockchain/record`: the transaction
id and the blockchain record object returned by the integration. -/
structure RecordResponse where
  transaction_id : String
  blockchain_record : RecordData
deriving Repr, DecidableEq

/-- The fraud-prediction object both blockchain routes build from the stored
transaction row: `is_fraud: transaction.is_fraud || false`, and
`fraud_score` and `confidence` both from `transaction.fraud_score || 0`. -/
def routePrediction (t : Transaction) : FraudPrediction :=
  { is_fraud := t.is_fraud
    fraud_score := t.fraud_score
    confidence := t.fraud_score }

/-- The record object the routes obtain from a successful
`createFraudAlertTransaction` call for a stored transaction. -/
def routeRecord (t : Transaction) (h : String) : RecordData :=
  { transaction_id := t.transaction_id
    cardano_tx_hash := some h
    nft_id := none
    metadata := encodeMetadata t (routePrediction t)
    block_height := none
    confirmation_status := "pending"
    created_at := t.timestamp }

/-- Models `POST /api/blockchain/record` (routes/blockchain.js): looks the
transaction up, builds `fraudPrediction` from the stored row
(`is_fraud: transaction.is_fraud || false`, `fraud_score` and `confidence`
both from `transaction.fraud_score || 0`), calls
`createFraudAlertTransaction`, saves the result via
`createBlockchainRecord`, and answers 201; every thrown error lands in the
catch block and answers 500 with the database unchanged.  The route performs
no lookup of existing blockchain records before recording. -/
def blockchainRecordRoute (db : Db) (txid : String) (submit : SubmitOutcome) :
    Except RouteError RecordResponse × Db :=
  match getTransaction db txid with
  | none => (.error .txNotFound, db)
  | some t =>
    match createFraudAlertTransaction t (routePrediction t) submit with
    | .error e => (.error (.internal e), db)
    | .ok rec =>
      match createBlockchainRecord db rec with
      | .error e => (.error (.internalDb e), db)
      | .ok (db2, _) =>
        (.ok { transaction_id := txid, blockchain_record := rec }, db2)

/-- The per-item entry pushed into the `results` or `errors` array of the
batch route. -/
inductive ItemOutcome where
  | success (transaction_id : String) (record : RecordData)
  | failure (transaction_id : String) (error : String)
deriving Repr, DecidableEq

/-- The transaction id an outcome entry refers to. -/
def ItemOutcome.txId : ItemOutcome → String
  | .success txid _ => txid
  | .failure txid _ => txid

/-- Whether an outcome was pushed into `results` (as opposed to `errors`). -/
def ItemOutcome.isSuccess : ItemOutcome → Bool
  | .success _ _ => true
  | .failure _ _ => false

/-- The `error.message` strings of the errors the batch loop can catch. -/
def ledgerErrorMessage : LedgerError → String
  | .NotEligible => "NotEligible"
  | .LedgerUnavailable => "LedgerUnavailable"
  | .LedgerRejected => "LedgerRejected"
  | .InsufficientFunds => "InsufficientFunds"
  | .WalletError => "WalletError"

/-- The `error.message` strings of caught database errors. -/
def dbErrorMessage : DbError → String
  | .uniqueConstraint => "UNIQUE constraint failed"
  | .notNullConstraint => "NOT NULL constraint failed"

/-- The body of the `for` loop of `POST /api/blockchain/batch-record`: one
iteration for one transaction id, inside its own try/catch.  A missing
transaction pushes an error entry and continues; a thrown error is caught
and pushed as an error entry; a successful recording inserts the record and
pushes a success entry. -/
def processBatchItem (db : Db) (item : String × SubmitOutcome) :
    Db × ItemOutcome :=
  match getTransaction db item.1 with
  | none => (db, .failure item.1 "Transaction not found")
  | some t =>
    match createFraudAlertTransaction t (routePrediction t) item.2 with
    | .error e => (db, .failure item.1 (ledgerErrorMessage e))
    | .ok rec =>
      match createBlockchainRecord db rec with
      | .error e => (db, .failure item.1 (dbErrorMessage e))
      | .ok (db2, _) => (db2, .success item.1 rec)

/-- The loop of `POST /api/blockchain/batch-record`: iterates the submitted
transaction ids in order, each paired with its external submission outcome,
threading the database through and collecting one outcome entry per item. -/
def batchRecordRoute (db : Db) :
    List (String × SubmitOutcome) → Db × List ItemOutcome
  | [] => (db, [])
  | item :: rest =>
    let step := processBatchItem db item
    let tail := batchRecordRoute step.1 rest
    (tail.1, step.2 :: tail.2)

/-- The 201 response body of the batch route.  The JavaScript object literal
writes `errors: errors.length` and later `errors: errors`; in a JS object
literal the later duplicate key wins, so the response field `errors` holds
the per-item error array (whose length is the failure count), while
`processed` holds the success count. -/
structure BatchResponse where
  processed : Nat
  results : List ItemOutcome
  errors : List ItemOutcome
deriving Repr, DecidableEq

/-- Builds the batch response from the collected outcomes. -/
def mkBatchResponse (outcomes : List ItemOutcome) : BatchResponse :=
  { processed := (outcomes.filter (fun o => o.isSuccess)).length
    results := outcomes.filter (fun o => o.isSuccess)
    errors := outcomes.filter (fun o => !o.isSuccess) }

/-- A row of the `fraud_alerts` table as built by the demo generator
(demo/demo_data.js `generateFraudAlerts`). -/
structure FraudAlert where
  transaction_id : String
  alert_type : String
  severity : String
  confidence_score : Rat
  ml_model_used : String
  features : List (String × JsonVal)
  created_at : String
deriving Repr, DecidableEq

/-- The severity expression of `generateFraudAlerts`:
`transaction.amount > 2000 ? 'high' : transaction.amount > 1000 ? 'medium' :
'low'`. -/
def demoSeverity (amount : Rat) : String :=
  if amount > 2000 then "high" else if amount > 1000 then "medium" else "low"

/-- The alert condition of `generateFraudAlerts` (JS `&&` binds tighter than
`||`): `amount > 1000 || (hour >= 2 && hour <= 5) ||
(merchant_category === 'online_shopping' && amount > 500)`. -/
def demoAlertCondition (t : Transaction) : Bool :=
  t.amount > 1000 || (2 ≤ t.hour && t.hour ≤ 5) ||
    (t.merchant_category == "online_shopping" && t.amount > 500)

/-- One iteration of `generateFraudAlerts`: when the alert condition holds,
builds the alert object; the confidence score is drawn from
`Math.random() * 0.4 + 0.6` and is therefore an input here, as is the
creation timestamp. -/
def generateFraudAlert (t : Transaction) (confidence : Rat)
    (createdAt : String) : Option FraudAlert :=
  if demoAlertCondition t then
    some { transaction_id := t.transaction_id
           alert_type := "FRAUD_ALERT"
           severity := demoSeverity t.amount
           confidence_score := confidence
           ml_model_used := "XGBoost + KMeans"
           features :=
             [("amount", .num t.amount),
              ("hour", .num (t.hour : Rat)),
              ("merchant_category", .str t.merchant_category),
              ("is_weekend", .num (t.is_weekend : Rat)),
              ("is_holiday", .num (t.is_holiday : Rat))]
           created_at := createdAt }
  else
    none

/-- The metadata object of `generateBlockchainRecords`
(`JSON.stringify({...})`): transaction id, amount, a flag that is
`'Suspicious'` exactly when `transaction.amount > 2000`, timestamp, merchant
name and merchant category — and nothing else. -/
def demoMetadata (t : Transaction) : List (String × JsonVal) :=
  [("transactionID", .str t.transaction_id),
   ("amount", .num t.amount),
   ("flag", .str (if t.amount > 2000 then "Suspicious" else "Legitimate")),
   ("timestamp", .str t.timestamp),
   ("merchantName", .str t.merchant_name),
   ("merchantCategory", .str t.merchant_category)]

/-- One iteration of `generateBlockchainRecords`: only transactions with
`amount > 1000` produce a record; the random hash, optional NFT id, random
block height (always a number, 1000000-2000000), random confirmation status
(`'confirmed'` with probability 0.8, else `'pending'`) and creation time are
inputs standing for the `Math.random()`/`crypto` draws. -/
def generateBlockchainRecord (t : Transaction) (hash : String)
    (nftId : Option String) (blockHeight : Nat) (status : String)
    (createdAt : String) : Option RecordData :=
  if t.amount > 1000 then
    some { transaction_id := t.transaction_id
           cardano_tx_hash := some hash
           nft_id := nftId
           metadata := demoMetadata t
           block_height := some blockHeight
           confirmation_status := status
           created_at := createdAt }
  else
    none

/-- The fraud rule of `seedDatabase` (demo/seed.js): a seeded transaction is
marked fraudulent when `amount > 1000`, or `2 <= hour <= 5`, or it is an
`online_shopping` purchase above 500. -/
def seedIsFraud (t : Transaction) : Bool :=
  t.amount > 1000 || (2 ≤ t.hour && t.hour ≤ 5) ||
    (t.merchant_category == "online_shopping" && t.amount > 500)

/-- The prediction object parsed from the scoring script output
(`JSON.parse` of the `Sample prediction:` line in routes/transactions.js).
`is_fraud` and `kmeans_anomaly` are the 0/1 numbers the Python script
prints. -/
structure Prediction where
  is_fraud : Nat
  fraud_score : Rat
  confidence : Rat
  xgb_probability : Rat
  kmeans_anomaly : Nat
  anomaly_distance : Rat
deriving Repr, DecidableEq

/-- The object `runFraudDetection` resolves with. -/
structure DetectionResult where
  is_fraud : Nat
  fraud_score : Rat
  fraud_reason : String
  confidence : Rat
  xgb_probability : Rat
  kmeans_anomaly : Nat
deriving Repr, DecidableEq

/-- The conservative fallback prediction `runFraudDetection` resolves with
whenever the Python process exits non-zero, its output lacks a
`Sample prediction:` line, or parsing the line throws. -/
def fallbackPrediction : DetectionResult :=
  { is_fraud := 0
    fraud_score := 1/10
    fraud_reason := "Legitimate transaction"
    confidence := 9/10
    xgb_probability := 1/10
    kmeans_anomaly := 0 }

/-- The fraud-reason derivation of `runFraudDetection` for a parsed
prediction: collects reason strings for a fraudulent prediction and joins
them with a comma. -/
def fraudReasonOf (p : Prediction) : String :=
  if p.is_fraud ≠ 0 then
    let reasons :=
      (if p.xgb_probability > 7/10 then ["High ML probability"] else []) ++
      (if p.kmeans_anomaly ≠ 0 then ["Anomaly detected"] else []) ++
      (if p.anomaly_distance > 2 then ["Unusual pattern"] else [])
    if reasons = [] then "Suspicious activity detected"
    else String.intercalate ", " reasons
  else
    "Legitimate transaction"

/-- The successful-path result of `runFraudDetection` for a parsed
prediction. -/
def resultOfPrediction (p : Prediction) : DetectionResult :=
  { is_fraud := p.is_fraud
    fraud_score := p.fraud_score
    fraud_reason := fraudReasonOf p
    confidence := p.confidence
    xgb_probability := p.xgb_probability
    kmeans_anomaly := p.kmeans_anomaly }

/-- The line-scanning and parsing part of `runFraudDetection`: the first
output line containing `Sample prediction:` is split on
`'Sample prediction: '` and its second part is parsed by `JSON.parse`
(modelled by the `parseJson` argument; `none` stands for a thrown
SyntaxError, which the surrounding try/catch turns into the fallback).
A line matching the search substring but not the split substring leaves the
second part undefined, which also makes `JSON.parse` throw. -/
def extractPrediction (parseJson : String → Option Prediction)
    (output : List String) : Option Prediction :=
  match output.find? (fun l => (l.splitOn "Sample prediction:").length > 1) with
  | none => none
  | some line =>
    match (line.splitOn "Sample prediction: ")[1]? with
    | none => none
    | some s => parseJson s

/-- Models `runFraudDetection` (routes/transactions.js): spawns the scoring script;
on non-zero exit resolves the fallback; on zero exit scans the output lines
for the prediction and resolves the fallback when extraction or parsing
fails.  The process exit code and output lines are inputs, as is the
`JSON.parse` behaviour. -/
def runFraudDetection (parseJson : String → Option Prediction)
    (exitCode : Nat) (output : List String) : DetectionResult :=
  if exitCode = 0 then
    match extractPrediction parseJson output with
    | some p => resultOfPrediction p
    | none => fallbackPrediction
  else
    fallbackPrediction

/-- A fraudulent stored transaction (the end-to-end scenario of the spec:
amount 5000, fraud score 0.85). -/
def sampleTx1 : Transaction :=
  { transaction_id := "TX1"
    user_id := "USER0001"
    amount := 5000
    currency := "USD"
    merchant_name := "Online Store"
    merchant_category := "online_shopping"
    timestamp := "2025-01-21T12:34:00Z"
    hour := 12
    is_weekend := 0
    is_holiday := 0
    is_fraud := true
    fraud_score := 17/20 }

/-- A legitimate stored transaction (not fraudulent, score 0.2). -/
def sampleTx2 : Transaction :=
  { transaction_id := "TX2"
    user_id := "USER0002"
    amount := 42
    currency := "USD"
    merchant_name := "Grocery Mart"
    merchant_category := "grocery"
    timestamp := "2025-01-21T09:00:00Z"
    hour := 9
    is_weekend := 0
    is_holiday := 0
    is_fraud := false
    fraud_score := 1/5 }

/-- A database holding the two sample transactions and no blockchain
records. -/
def sampleDb : Db :=
  { transactions := [sampleTx1, sampleTx2]
    blockchain_records := []
    nextId := 1 }

/-- A demo transaction of amount 1500: fraudulent under the seeding rule
(amount above 1000) yet below the 2000 threshold the demo metadata flag
uses. -/
def txDemo1500 : Transaction :=
  { transaction_id := "TXDEMO"
    user_id := "USER0100"
    amount := 1500
    currency := "USD"
    merchant_name := "Airlines"
    merchant_category := "travel"
    timestamp := "2025-01-20T03:10:00Z"
    hour := 3
    is_weekend := 0
    is_holiday := 0
    is_fraud := false
    fraud_score := 0 }

/-- The blockchain record `generateBlockchainRecords` builds for
`txDemo1500` (hash `"hD"`, no NFT, block height 1234567, drawn status
`"confirmed"`). -/
def rDemo1500 : RecordData :=
  { transaction_id := "TXDEMO"
    cardano_tx_hash := some "hD"
    nft_id := none
    metadata := demoMetadata txDemo1500
    block_height := some 1234567
    confirmation_status := "confirmed"
    created_at := "t0" }

/-- A record object carrying `confirmation_status` `"confirmed"`, used to
exercise the insert helper ignoring that field. -/
def rConfirmed : RecordData :=
  { transaction_id := "TX1"
    cardano_tx_hash := some "hC6"
    nft_id := none
    metadata := []
    block_height := some 424242
    confirmation_status := "confirmed"
    created_at := "t1" }

/-- The database state after inserting `rConfirmed` into the empty
database. -/
def dbC6 : Db :=
  { transactions := []
    blockchain_records := [insertedRow emptyDb rConfirmed "hC6"]
    nextId := 2 }

/-- A record object with hash `"h0"`, inserted twice in the uniqueness
witness. -/
def rW : RecordData :=
  { transaction_id := "TX1"
    cardano_tx_hash := some "h0"
    nft_id := none
    metadata := []
    block_height := none
    confirmation_status := "pending"
    created_at := "t2" }

/-- A database already holding a record with hash `"h0"`. -/
def dbC7 : Db :=
  { transactions := []
    blockchain_records := [insertedRow emptyDb rW "h0"]
    nextId := 2 }

/-- A record object with a null ledger hash (a pending record with no hash,
as the spec would have the Alert Recorder persist). -/
def rNoHash : RecordData :=
  { transaction_id := "TX1"
    cardano_tx_hash := none
    nft_id := none
    metadata := []
    block_height := none
    confirmation_status := "pending"
    created_at := "t3" }

/-- A transaction of amount 2500 whose stored score 0.6 lies in the
medium band of the claimed severity thresholds. -/
def txC8 : Transaction :=
  { transaction_id := "TX8"
    user_id := "USER0008"
    amount := 2500
    currency := "USD"
    merchant_name := "Retail Giant"
    merchant_category := "retail"
    timestamp := "2025-01-22T10:00:00Z"
    hour := 14
    is_weekend := 0
    is_holiday := 0
    is_fraud := true
    fraud_score := 3/5 }

/-- The alert `generateFraudAlerts` builds for `txC8` with drawn confidence
0.6. -/
def alertC8 : FraudAlert :=
  { transaction_id := txC8.transaction_id
    alert_type := "FRAUD_ALERT"
    severity := demoSeverity txC8.amount
    confidence_score := 3/5
    ml_model_used := "XGBoost + KMeans"
    features :=
      [("amount", .num txC8.amount),
       ("hour", .num (txC8.hour : Rat)),
       ("merchant_category", .str txC8.merchant_category),
       ("is_weekend", .num (txC8.is_weekend : Rat)),
       ("is_holiday", .num (txC8.is_holiday : Rat))]
    created_at := "t0" }

/-- Membership in the stored hashes matches the Boolean scan the insert
helper performs. -/
theorem mem_hashes_iff {db : Db} {h : String} :
    h ∈ hashes db ↔
      (db.blockchain_records.any fun row => row.cardano_tx_hash == h) = true := by
  simp [hashes, List.any_eq_true, List.mem_map, beq_iff_eq]

/-- Inserting a record whose hash is fresh succeeds and appends exactly the
row of `insertedRow`. -/
theorem createBlockchainRecord_ok_of {db : Db} {r : RecordData} {h : String}
    (hh : r.cardano_tx_hash = some h) (hn : h ∉ hashes db) :
    createBlockchainRecord db r =
      .ok ({ db with
              blockchain_records := db.blockchain_records ++ [insertedRow db r h]
              nextId := db.nextId + 1 },
            db.nextId) := by
  have hany : ¬ (db.blockchain_records.any fun row => row.cardano_tx_hash == h) = true :=
    fun hc => hn (mem_hashes_iff.mpr hc)
  simp only [createBlockchainRecord, hh]
  rw [if_neg hany]

/-- Inserting a record whose hash is already stored raises the UNIQUE
constraint error. -/
theorem createBlockchainRecord_dup {db : Db} {r : RecordData} {h : String}
    (hh : r.cardano_tx_hash = some h) (hmem : h ∈ hashes db) :
    createBlockchainRecord db r = .error .uniqueConstraint := by
  have hany := mem_hashes_iff.mp hmem
  simp only [createBlockchainRecord, hh]
  rw [if_pos hany]

/-- Inversion of a successful insert: the input hash was non-null and fresh,
and the state grew by exactly the row of `insertedRow`. -/
theorem createBlockchainRecord_ok_elim {db : Db} {r : RecordData} {db2 : Db}
    {n : Nat} (hok : createBlockchainRecord db r = .ok (db2, n)) :
    ∃ h, r.cardano_tx_hash = some h ∧ h ∉ hashes db ∧
      db2 = { db with
              blockchain_records := db.blockchain_records ++ [insertedRow db r h]
              nextId := db.nextId + 1 } ∧
      n = db.nextId := by
  unfold createBlockchainRecord at hok
  split at hok
  · simp at hok
  · rename_i h hh
    split at hok
    · simp at hok
    · rename_i hc
      have hinj := hok
      simp only [Except.ok.injEq, Prod.mk.injEq] at hinj
      exact ⟨h, hh, fun hm => hc (mem_hashes_iff.mp hm), hinj.1.symm, hinj.2.symm⟩

/-- A successful insert extends the stored hashes by the new hash. -/
theorem hashes_insert (db : Db) (r : RecordData) (h : String) :
    hashes { db with
              blockchain_records := db.blockchain_records ++ [insertedRow db r h]
              nextId := db.nextId + 1 } = hashes db ++ [h] := by
  simp [hashes, insertedRow]

/-- Any sequence of inserts (with constraint violations dropped, as
`seedDatabase` does) preserves distinctness of the stored hashes. -/
theorem nodup_hashes_applyInserts (rs : List RecordData) (db : Db)
    (hdb : (hashes db).Nodup) : (hashes (applyInserts db rs)).Nodup := by
  induction rs generalizing db with
  | nil => simpa [applyInserts] using hdb
  | cons r rs ih =>
    rw [show applyInserts db (r :: rs) =
        applyInserts
          (match createBlockchainRecord db r with
           | .ok (d2, _) => d2
           | .error _ => db) rs from rfl]
    apply ih
    rcases hres : createBlockchainRecord db r with e | ⟨db2, n⟩
    · simpa [hres] using hdb
    · rcases createBlockchainRecord_ok_elim hres with ⟨h, hh, hnm, hdb2, hn2⟩
      show (hashes db2).Nodup
      subst hdb2
      rw [hashes_insert, List.nodup_append]
      exact ⟨hdb, List.nodup_singleton h, List.disjoint_singleton.mpr hnm⟩

/-- A transaction found by `getTransaction` bears the looked-up id. -/
theorem getTransaction_id {db : Db} {txid : String} {t : Transaction}
    (ht : getTransaction db txid = some t) : t.transaction_id = txid := by
  unfold getTransaction at ht
  have := List.find?_some ht
  simpa [beq_iff_eq] using this

/-- The record route on a stored fraudulent transaction with a fresh
submission hash answers 201 with the new record and appends it to the
table. -/
theorem blockchainRecordRoute_ok_of {db : Db} {txid : String}
    {t : Transaction} {h : String}
    (ht : getTransaction db txid = some t) (hf : t.is_fraud = true)
    (hn : h ∉ hashes db) :
    blockchainRecordRoute db txid (.ok h) =
      (.ok { transaction_id := txid, blockchain_record := routeRecord t h },
       { db with
          blockchain_records := db.blockchain_records ++
            [insertedRow db (routeRecord t h) h]
          nextId := db.nextId + 1 }) := by
  have hcr : createFraudAlertTransaction t (routePrediction t) (.ok h) =
      .ok (routeRecord t h) := by
    simp [createFraudAlertTransaction, routePrediction, routeRecord, hf]
  have hins := @createBlockchainRecord_ok_of db (routeRecord t h) h rfl hn
  simp [blockchainRecordRoute, ht, hcr, hins]

/-- Each iteration of the batch loop tags its outcome entry with the
processed item's transaction id. -/
theorem processBatchItem_txId (db : Db) (item : String × SubmitOutcome) :
    (processBatchItem db item).2.txId = item.1 := by
  unfold processBatchItem
  split
  · rfl
  · split
    · rfl
    · split
      · rfl
      · rfl

/-- The batch loop emits the outcome entries in item order, one per item. -/
theorem batch_map_txId (db : Db) (items : List (String × SubmitOutcome)) :
    (batchRecordRoute db items).2.map ItemOutcome.txId = items.map Prod.fst := by
  induction items generalizing db with
  | nil => rfl
  | cons item rest ih =>
    simp [batchRecordRoute, processBatchItem_txId, ih]

/-- Splitting the outcomes into successes and failures loses no entry. -/
theorem filter_isSuccess_length (os : List ItemOutcome) :
    (os.filter fun o => o.isSuccess).length +
      (os.filter fun o => !o.isSuccess).length = os.length := by
  induction os with
  | nil => rfl
  | cons o os ih =>
    cases ho : o.isSuccess <;> simp [List.filter_cons, ho] <;> omega

/-- C1, counterexample: starting from a database with the fraudulent
transaction TX1 and no blockchain records, two calls of the record route for
TX1 (each submission returning a fresh hash) leave TWO records for TX1, both
in non-failed status, and the second call answers with the newly built
record (hash `"hashB"`), not the record of the first call — refuting the
claimed idempotency check and the exactly-once guarantee. -/
theorem c1_counterexample :
    (recordsFor (blockchainRecordRoute
        (blockchainRecordRoute sampleDb "TX1" (.ok "hashA")).2
        "TX1" (.ok "hashB")).2 "TX1").length = 2 ∧
    (∀ row ∈ (blockchainRecordRoute
        (blockchainRecordRoute sampleDb "TX1" (.ok "hashA")).2
        "TX1" (.ok "hashB")).2.blockchain_records,
      row.confirmation_status ≠ "failed") ∧
    (blockchainRecordRoute (blockchainRecordRoute sampleDb "TX1"
        (.ok "hashA")).2 "TX1" (.ok "hashB")).1 =
      .ok { transaction_id := "TX1",
            blockchain_record := routeRecord sampleTx1 "hashB" } ∧
    routeRecord sampleTx1 "hashB" ≠ routeRecord sampleTx1 "hashA" := by
  refine ⟨by decide, by decide, rfl, by decide⟩

/-- C1 (amended): the record operation performs no idempotency check — every
call for a stored fraudulent transaction performs a new ledger submission
and inserts an additional LedgerRecord; with distinct submission hashes, two
calls for the same transaction identifier add two records, both created in
status `"pending"` (non-failed), and each call answers with its own newly
built record. -/
theorem c1_two_calls_two_records (db : Db) (txid : String) (t : Transaction)
    (h1 h2 : String)
    (ht : getTransaction db txid = some t) (hf : t.is_fraud = true)
    (hn1 : h1 ∉ hashes db) (hn2 : h2 ∉ hashes db) (hne : h1 ≠ h2) :
    (blockchainRecordRoute db txid (.ok h1)).1 =
      .ok { transaction_id := txid, blockchain_record := routeRecord t h1 } ∧
    (blockchainRecordRoute (blockchainRecordRoute db txid (.ok h1)).2 txid
        (.ok h2)).1 =
      .ok { transaction_id := txid, blockchain_record := routeRecord t h2 } ∧
    (recordsFor (blockchainRecordRoute (blockchainRecordRoute db txid
        (.ok h1)).2 txid (.ok h2)).2 txid).length =
      (recordsFor db txid).length + 2 ∧
    ∀ row ∈ (blockchainRecordRoute (blockchainRecordRoute db txid
        (.ok h1)).2 txid (.ok h2)).2.blockchain_records,
      row ∉ db.blockchain_records → row.confirmation_status = "pending" := by
  have htid : t.transaction_id = txid := getTransaction_id ht
  have e1 := blockchainRecordRoute_ok_of ht hf hn1
  have ht1 : getTransaction
      { db with
        blockchain_records := db.blockchain_records ++
          [insertedRow db (routeRecord t h1) h1]
        nextId := db.nextId + 1 } txid = some t := ht
  have hn2' : h2 ∉ hashes
      { db with
        blockchain_records := db.blockchain_records ++
          [insertedRow db (routeRecord t h1) h1]
        nextId := db.nextId + 1 } := by
    rw [hashes_insert]
    intro hmem
    rcases List.mem_append.mp hmem with hA | hB
    · exact hn2 hA
    · exact hne (List.mem_singleton.mp hB).symm
  have e2 := blockchainRecordRoute_ok_of ht1 hf hn2'
  rw [e1]
  dsimp only
  rw [e2]
  dsimp only
  refine ⟨rfl, rfl, ?_, ?_⟩
  · simp [recordsFor, List.filter_append, insertedRow, routeRecord, htid]
  · intro row hrow hnotin
    simp only [List.mem_append, List.mem_singleton] at hrow
    rcases hrow with (hA | hB) | hC
    · exact absurd hA hnotin
    · rw [hB]; rfl
    · rw [hC]; rfl

/-- C1, witness: the amended theorem applied to the sample database holding
TX1, with fresh distinct submission hashes. -/
theorem c1_witness :
    getTransaction sampleDb "TX1" = some sampleTx1 ∧
    sampleTx1.is_fraud = true ∧
    "hashA" ∉ hashes sampleDb ∧ "hashB" ∉ hashes sampleDb ∧
    "hashA" ≠ "hashB" ∧
    ((blockchainRecordRoute sampleDb "TX1" (.ok "hashA")).1 =
      .ok { transaction_id := "TX1",
            blockchain_record := routeRecord sampleTx1 "hashA" } ∧
    (blockchainRecordRoute (blockchainRecordRoute sampleDb "TX1"
        (.ok "hashA")).2 "TX1" (.ok "hashB")).1 =
      .ok { transaction_id := "TX1",
            blockchain_record := routeRecord sampleTx1 "hashB" } ∧
    (recordsFor (blockchainRecordRoute (blockchainRecordRoute sampleDb "TX1"
        (.ok "hashA")).2 "TX1" (.ok "hashB")).2 "TX1").length =
      (recordsFor sampleDb "TX1").length + 2 ∧
    ∀ row ∈ (blockchainRecordRoute (blockchainRecordRoute sampleDb "TX1"
        (.ok "hashA")).2 "TX1" (.ok "hashB")).2.blockchain_records,
      row ∉ sampleDb.blockchain_records →
        row.confirmation_status = "pending") :=
  ⟨rfl, rfl, by decide, by decide, by decide,
   c1_two_calls_two_records sampleDb "TX1" sampleTx1 "hashA" "hashB"
     rfl rfl (by decide) (by decide) (by decide)⟩

/-- C2: for every stored transaction whose fraud flag is false, the record
operation fails with NotEligible (surfaced through the catch-all error
answer) and the database is unchanged — no LedgerRecord is created — for
any behaviour of the external ledger.  The eligibility check itself lives in
the modelled `createFraudAlertTransaction`. -/
theorem c2_not_eligible (db : Db) (txid : String) (t : Transaction)
    (submit : SubmitOutcome)
    (ht : getTransaction db txid = some t) (hf : t.is_fraud = false) :
    blockchainRecordRoute db txid submit =
      (.error (.internal .NotEligible), db) := by
  simp [blockchainRecordRoute, ht, createFraudAlertTransaction,
    routePrediction, hf]

/-- C2, witness: the theorem applied to the non-fraudulent sample
transaction TX2. -/
theorem c2_witness :
    getTransaction sampleDb "TX2" = some sampleTx2 ∧
    sampleTx2.is_fraud = false ∧
    blockchainRecordRoute sampleDb "TX2" (.ok "h") =
      (.error (.internal .NotEligible), sampleDb) :=
  ⟨rfl, rfl, c2_not_eligible sampleDb "TX2" sampleTx2 (.ok "h") rfl rfl⟩

/-- C3: whenever the scoring process exits non-zero, or its output admits no
parsable prediction (no `Sample prediction:` line, or `JSON.parse` fails),
`runFraudDetection` resolves — it never propagates an error — with the
conservative default prediction: `is_fraud` 0 and `fraud_score` 0.1. -/
theorem c3_scoring_fallback (parseJson : String → Option Prediction)
    (exitCode : Nat) (output : List String)
    (hfail : exitCode ≠ 0 ∨ extractPrediction parseJson output = none) :
    runFraudDetection parseJson exitCode output = fallbackPrediction ∧
    (runFraudDetection parseJson exitCode output).is_fraud = 0 ∧
    (runFraudDetection parseJson exitCode output).fraud_score = 1/10 := by
  have hres : runFraudDetection parseJson exitCode output =
      fallbackPrediction := by
    rcases hfail with hc | he
    · simp [runFraudDetection, hc]
    · by_cases hc : exitCode = 0
      · simp [runFraudDetection, hc, he]
      · simp [runFraudDetection, hc]
  exact ⟨hres, by rw [hres]; rfl, by rw [hres]; norm_num [fallbackPrediction]⟩

/-- C3, witness: the theorem applied to a process that exits with code 1 and
prints nothing. -/
theorem c3_witness :
    ((1 : Nat) ≠ 0 ∨ extractPrediction (fun _ => none) [] = none) ∧
    (runFraudDetection (fun _ => none) 1 [] = fallbackPrediction ∧
     (runFraudDetection (fun _ => none) 1 []).is_fraud = 0 ∧
     (runFraudDetection (fun _ => none) 1 []).fraud_score = 1/10) :=
  ⟨Or.inl (by decide),
   c3_scoring_fallback (fun _ => none) 1 [] (Or.inl (by decide))⟩

/-- C4, counterexample: the transaction of amount 1500 is fraudulent under
the seeding rule, yet the metadata payload the repository encodes for it
carries the flag `"Legitimate"` (the flag follows the amount threshold 2000,
not the fraud verdict) and contains no currency, fraud score or confidence
entry — refuting the claimed payload contents. -/
theorem c4_counterexample :
    seedIsFraud txDemo1500 = true ∧
    (demoMetadata txDemo1500).lookup "flag" = some (.str "Legitimate") ∧
    (demoMetadata txDemo1500).lookup "currency" = none ∧
    (demoMetadata txDemo1500).lookup "fraudScore" = none ∧
    (demoMetadata txDemo1500).lookup "confidence" = none := by
  decide

/-- C4 (amended): the metadata payload encoded in the repository (the demo
generator, the only encoder present in the sources) contains the transaction
identifier, amount, flag, timestamp, merchant name and merchant category —
but no currency entry — and its flag is `"Suspicious"` exactly when the
amount exceeds 2000, regardless of the fraud verdict; the full claimed field
set with a verdict-driven flag holds only for the codec of the missing
integration module as modelled from the spec and README
(`encodeMetadata`). -/
theorem c4_demo_metadata_fields (t : Transaction) (p : FraudPrediction) :
    (demoMetadata t).lookup "transactionID" = some (.str t.transaction_id) ∧
    (demoMetadata t).lookup "amount" = some (.num t.amount) ∧
    (demoMetadata t).lookup "flag" =
      some (.str (if t.amount > 2000 then "Suspicious" else "Legitimate")) ∧
    (demoMetadata t).lookup "timestamp" = some (.str t.timestamp) ∧
    (demoMetadata t).lookup "merchantName" = some (.str t.merchant_name) ∧
    (demoMetadata t).lookup "merchantCategory" =
      some (.str t.merchant_category) ∧
    (demoMetadata t).lookup "currency" = none ∧
    (encodeMetadata t p).lookup "flag" =
      some (.str (if p.is_fraud then "Suspicious" else "Legitimate")) :=
  ⟨rfl, rfl, rfl, rfl, rfl, rfl, rfl, rfl⟩

/-- C5, counterexample: with the ledger unavailable, the record route for
the fraudulent TX1 answers a 500 error and leaves the database unchanged —
no pending LedgerRecord (with or without hash) and no retry entry exist —
and a record carrying a null hash cannot be stored at all, because of the
NOT NULL constraint on `cardano_tx_hash`. -/
theorem c5_counterexample :
    blockchainRecordRoute sampleDb "TX1" .unavailable =
      (.error (.internal .LedgerUnavailable), sampleDb) ∧
    (recordsFor sampleDb "TX1").length = 0 ∧
    createBlockchainRecord sampleDb rNoHash = .error .notNullConstraint := by
  refine ⟨rfl, by decide, rfl⟩

/-- C5 (amended): when ledger submission fails with the transient
LedgerUnavailable error, the record operation fails the caller with an
error answer and persists nothing (the database is returned unchanged, so
no pending record and no retry entry is created); independently, the NOT
NULL constraint on `cardano_tx_hash` rejects any record whose ledger hash
is not yet set. -/
theorem c5_unavailable_fails_caller (db : Db) (txid : String)
    (t : Transaction)
    (ht : getTransaction db txid = some t) (hf : t.is_fraud = true) :
    blockchainRecordRoute db txid .unavailable =
      (.error (.internal .LedgerUnavailable), db) ∧
    ∀ r : RecordData, r.cardano_tx_hash = none →
      createBlockchainRecord db r = .error .notNullConstraint := by
  constructor
  · simp [blockchainRecordRoute, ht, createFraudAlertTransaction,
      routePrediction, hf]
  · intro r hr
    simp [createBlockchainRecord, hr]

/-- C5, witness: the amended theorem applied to the fraudulent sample
transaction TX1. -/
theorem c5_witness :
    getTransaction sampleDb "TX1" = some sampleTx1 ∧
    sampleTx1.is_fraud = true ∧
    (blockchainRecordRoute sampleDb "TX1" .unavailable =
        (.error (.internal .LedgerUnavailable), sampleDb) ∧
      ∀ r : RecordData, r.cardano_tx_hash = none →
        createBlockchainRecord sampleDb r = .error .notNullConstraint) :=
  ⟨rfl, rfl, c5_unavailable_fails_caller sampleDb "TX1" sampleTx1 rfl rfl⟩

/-- C6: every successful record creation appends a row whose
`confirmation_status` is `"pending"`, for every input record object — in
particular the status value the caller supplies (such as `"confirmed"`) is
ignored, since the insert never writes that column. -/
theorem c6_status_always_pending (db : Db) (r : RecordData) (db2 : Db)
    (n : Nat) (hok : createBlockchainRecord db r = .ok (db2, n)) :
    ∃ row, db2.blockchain_records = db.blockchain_records ++ [row] ∧
      row.confirmation_status = "pending" := by
  rcases createBlockchainRecord_ok_elim hok with ⟨h, hh, hn, hdb2, hn2⟩
  subst hdb2
  exact ⟨insertedRow db r h, rfl, rfl⟩

/-- C6, witness: the theorem applied to a record object that carries
`confirmation_status` `"confirmed"`; the stored row is `"pending"`
nonetheless. -/
theorem c6_witness :
    createBlockchainRecord emptyDb rConfirmed = .ok (dbC6, 1) ∧
    rConfirmed.confirmation_status = "confirmed" ∧
    ∃ row, dbC6.blockchain_records = emptyDb.blockchain_records ++ [row] ∧
      row.confirmation_status = "pending" :=
  ⟨rfl, rfl, c6_status_always_pending emptyDb rConfirmed dbC6 1 rfl⟩

/-- C7: the stored ledger transaction hashes are pairwise distinct in every
database reachable from the empty one by record inserts (hashes are non-null
by the schema), and an attempted insertion of a record whose hash is already
stored is rejected with the UNIQUE constraint error rather than stored. -/
theorem c7_hash_unique (rs : List RecordData) (db : Db) (r : RecordData)
    (h : String)
    (hh : r.cardano_tx_hash = some h) (hmem : h ∈ hashes db) :
    (hashes (applyInserts emptyDb rs)).Nodup ∧
    createBlockchainRecord db r = .error .uniqueConstraint :=
  ⟨nodup_hashes_applyInserts rs emptyDb (by simp [hashes, emptyDb]),
   createBlockchainRecord_dup hh hmem⟩

/-- C7, witness: the theorem applied to a duplicate insertion of the hash
`"h0"` against a database already holding it, and to a seed sequence that
tries the same record twice. -/
theorem c7_witness :
    rW.cardano_tx_hash = some "h0" ∧
    "h0" ∈ hashes dbC7 ∧
    ((hashes (applyInserts emptyDb [rW, rW])).Nodup ∧
      createBlockchainRecord dbC7 rW = .error .uniqueConstraint) :=
  ⟨rfl, by decide, c7_hash_unique [rW, rW] dbC7 rW "h0" rfl (by decide)⟩

/-- C8, counterexample: for the transaction of amount 2500 the demo
generator emits an alert with confidence score 0.6 — inside the claimed
medium band [0.5, 0.8) — yet severity `"high"`, because severity follows the
amount threshold 2000, not the score — refuting the claimed score-derived
severity. -/
theorem c8_counterexample :
    generateFraudAlert txC8 (3/5) "t0" = some alertC8 ∧
    alertC8.confidence_score = 3/5 ∧
    (1/2 : Rat) ≤ 3/5 ∧ (3/5 : Rat) < 4/5 ∧
    alertC8.severity = "high" ∧ alertC8.severity ≠ "medium" := by
  refine ⟨rfl, rfl, by norm_num, by norm_num, rfl, by decide⟩

/-- C8 (amended): for every created demo fraud alert, severity is derived
from the transaction amount, not the confidence score: `"high"` when the
amount exceeds 2000, `"medium"` when it exceeds 1000 (but not 2000), and
`"low"` otherwise, whatever the drawn confidence score; in the alert route
the severity is a required request field supplied by the caller. -/
theorem c8_severity_from_amount (t : Transaction) (conf : Rat) (c : String)
    (a : FraudAlert) (ha : generateFraudAlert t conf c = some a) :
    a.severity =
      if t.amount > 2000 then "high"
      else if t.amount > 1000 then "medium"
      else "low" := by
  unfold generateFraudAlert at ha
  split at ha
  · cases ha
    rfl
  · cases ha

/-- C8, witness: the amended theorem applied to the amount-2500 transaction
with drawn confidence 0.6. -/
theorem c8_witness :
    generateFraudAlert txC8 (3/5) "t0" = some alertC8 ∧
    alertC8.severity =
      (if txC8.amount > 2000 then "high"
       else if txC8.amount > 1000 then "medium"
       else "low") :=
  ⟨rfl, c8_severity_from_amount txC8 (3/5) "t0" alertC8 rfl⟩

/-- C9, counterexample: the demo generator builds, for the amount-1500
transaction, a record with block height 1234567; inserting it stores a row
that simultaneously has confirmation status `"pending"` (the insert drops
the supplied status) and non-null block height — refuting the claimed
invariant that the height is null until confirmed. -/
theorem c9_counterexample :
    generateBlockchainRecord txDemo1500 "hD" none 1234567 "confirmed" "t0" =
      some rDemo1500 ∧
    ∃ row ∈ (applyInserts emptyDb [rDemo1500]).blockchain_records,
      row.confirmation_status = "pending" ∧
      row.block_height = some 1234567 := by
  decide

/-- C9 (amended): every successful record creation stores the
caller-supplied block height unchanged while setting confirmation status
`"pending"`, so a stored record can simultaneously be pending and carry a
non-null block height (as the demo-seeded records do). -/
theorem c9_block_height_stored (db : Db) (r : RecordData) (db2 : Db)
    (n : Nat) (hok : createBlockchainRecord db r = .ok (db2, n)) :
    ∃ row, db2.blockchain_records = db.blockchain_records ++ [row] ∧
      row.block_height = r.block_height ∧
      row.confirmation_status = "pending" := by
  rcases createBlockchainRecord_ok_elim hok with ⟨h, hh, hn, hdb2, hn2⟩
  subst hdb2
  exact ⟨insertedRow db r h, rfl, rfl, rfl⟩

/-- C9, witness: the amended theorem applied to the demo record of block
height 1234567. -/
theorem c9_witness :
    createBlockchainRecord emptyDb rDemo1500 =
      .ok ({ transactions := []
             blockchain_records := [insertedRow emptyDb rDemo1500 "hD"]
             nextId := 2 }, 1) ∧
    rDemo1500.block_height = some 1234567 ∧
    ∃ row, ({ transactions := []
              blockchain_records := [insertedRow emptyDb rDemo1500 "hD"]
              nextId := 2 } : Db).blockchain_records =
        emptyDb.blockchain_records ++ [row] ∧
      row.block_height = rDemo1500.block_height ∧
      row.confirmation_status = "pending" :=
  ⟨rfl, rfl, c9_block_height_stored emptyDb rDemo1500 _ 1 rfl⟩

/-- C10: the batch record loop processes every submitted item: the outcome
entries correspond one-to-one, in order, to the submitted transaction ids
(so no item's failure aborts the processing of the remaining items — each
failure only adds that item's error entry), and the response accounts for
every item: the success count `processed` plus the length of the per-item
`errors` array equals the number of submitted items. -/
theorem c10_batch_per_item (db : Db)
    (items : List (String × SubmitOutcome)) :
    (batchRecordRoute db items).2.map ItemOutcome.txId =
      items.map Prod.fst ∧
    (batchRecordRoute db items).2.length = items.length ∧
    (mkBatchResponse (batchRecordRoute db items).2).processed +
      (mkBatchResponse (batchRecordRoute db items).2).errors.length =
      items.length := by
  have hmap := batch_map_txId db items
  have hlen : (batchRecordRoute db items).2.length = items.length := by
    have := congrArg List.length hmap
    simpa using this
  refine ⟨hmap, hlen, ?_⟩
  rw [mkBatchResponse]
  simpa [filter_isSuccess_length] using
    (filter_isSuccess_length (batchRecordRoute db items).2).trans hlen
